import Mathlib

/-!
Shallow embedding of the FleetFlow admin app (src/app.py): data model,
user registration and approval, login gating, role-gated route guards,
and the trip lifecycle (creation, status updates, deletion) with their
validation checks. SQLite rows become Lean structures, tables become
lists, and each Flask handler body becomes a pure function from the
database state to a new state plus an outcome. Machine floats from web
forms are modelled as rationals (only comparisons are performed on them),
and the werkzeug password hash is an abstract parameter.
-/

namespace FleetFlow

/-- A calendar date, as produced by datetime.strptime with format
Y-m-d and compared with Python date ordering (lexicographic on
year, month, day). -/
structure Date where
  year : Nat
  month : Nat
  day : Nat
deriving Repr, DecidableEq

/-- Python date comparison: lexicographic on (year, month, day). -/
def dateLt (a b : Date) : Bool :=
  a.year < b.year ∨ (a.year = b.year ∧ (a.month < b.month ∨ (a.month = b.month ∧ a.day < b.day)))

/-- Gregorian leap year, as in Python datetime. -/
def isLeapYear (y : Nat) : Bool :=
  y % 4 == 0 && (y % 100 != 0 || y % 400 == 0)

/-- Days in a month, as validated by datetime.strptime. -/
def daysInMonth (y m : Nat) : Nat :=
  if m == 2 then (if isLeapYear y then 29 else 28)
  else if m == 4 || m == 6 || m == 9 || m == 11 then 30
  else 31

/-- Split a character list on a separator character (the behaviour of
str.split for a one-character separator). -/
def splitOnChar (c : Char) : List Char → List (List Char)
  | [] => [[]]
  | x :: xs =>
    if x = c then [] :: splitOnChar c xs
    else
      match splitOnChar c xs with
      | [] => [[x]]
      | y :: ys => (x :: y) :: ys

/-- Nonempty all-digit field of bounded length, the lexeme accepted by a
strptime numeric directive. -/
def digitField (maxLen : Nat) (cs : List Char) : Bool :=
  cs.length > 0 && cs.length ≤ maxLen && cs.all Char.isDigit

/-- Numeric value of a digit field. -/
def digitsToNat (cs : List Char) : Nat :=
  cs.foldl (fun n c => n * 10 + (c.toNat - 48)) 0

/-- Model of datetime.strptime(text, Y-m-d).date(): three dash-separated
digit fields (year up to 4 digits and at least 1, month and day up to 2
digits), with month in 1..12 and day valid for the month; none models the
ValueError raised on any other input. -/
def parseDate (s : String) : Option Date :=
  match splitOnChar '-' s.data with
  | [ys, ms, ds] =>
    if digitField 4 ys && digitField 2 ms && digitField 2 ds then
      if 1 ≤ digitsToNat ys && 1 ≤ digitsToNat ms && digitsToNat ms ≤ 12
          && 1 ≤ digitsToNat ds && digitsToNat ds ≤ daysInMonth (digitsToNat ys) (digitsToNat ms) then
        some ⟨digitsToNat ys, digitsToNat ms, digitsToNat ds⟩
      else none
    else none
  | _ => none

/-- Row of the users table. -/
structure User where
  id : Nat
  username : String
  name : Option String
  email : Option String
  password_hash : String
  role : String
  status : String
deriving Repr, DecidableEq

/-- Row of the vehicles table; max_capacity_kg is a form float, modelled
as a rational. -/
structure Vehicle where
  id : Nat
  model_name : String
  license_plate : String
  max_capacity_kg : ℚ
  odometer : Int
  status : String
deriving Repr, DecidableEq

/-- Row of the drivers table; license_expiry_date is free text in the
schema, with none modelling SQL NULL. -/
structure Driver where
  id : Nat
  name : String
  license_number : String
  license_expiry_date : Option String
  status : String
  safety_score : Int
deriving Repr, DecidableEq

/-- Row of the trips table. -/
structure Trip where
  id : Nat
  vehicle_id : Nat
  driver_id : Nat
  cargo_weight : Option ℚ
  origin : String
  destination : String
  status : String
deriving Repr, DecidableEq

/-- The database state: the four tables the claims touch, plus the next
AUTOINCREMENT ids for users and trips. -/
structure DB where
  users : List User
  vehicles : List Vehicle
  drivers : List Driver
  trips : List Trip
  nextUserId : Nat
  nextTripId : Nat
deriving Repr, DecidableEq

/-- The result a handler reports through flash: a success message, an
error message, or an uncaught exception (crash). -/
inductive Outcome
  | success (msg : String)
  | error (msg : String)
  | crash
deriving Repr, DecidableEq

/-- True exactly on the error outcomes. -/
def Outcome.isError : Outcome → Bool
  | .error _ => true
  | _ => false

/-- SELECT * FROM vehicles WHERE id = ? (first row). -/
def findVehicle (db : DB) (vid : Nat) : Option Vehicle :=
  db.vehicles.find? (fun v => v.id == vid)

/-- SELECT * FROM drivers WHERE id = ? (first row). -/
def findDriver (db : DB) (did : Nat) : Option Driver :=
  db.drivers.find? (fun d => d.id == did)

/-- SELECT * FROM trips WHERE id = ? (first row). -/
def findTrip (db : DB) (tid : Nat) : Option Trip :=
  db.trips.find? (fun t => t.id == tid)

/-- UPDATE vehicles SET status = ? WHERE id = ?. -/
def setVehicleStatus (db : DB) (vid : Nat) (s : String) : DB :=
  { db with vehicles := db.vehicles.map (fun v => if v.id == vid then { v with status := s } else v) }

/-- UPDATE drivers SET status = ? WHERE id = ?. -/
def setDriverStatus (db : DB) (did : Nat) (s : String) : DB :=
  { db with drivers := db.drivers.map (fun d => if d.id == did then { d with status := s } else d) }

/-- UPDATE trips SET status = ? WHERE id = ?. -/
def setTripStatus (db : DB) (tid : Nat) (s : String) : DB :=
  { db with trips := db.trips.map (fun t => if t.id == tid then { t with status := s } else t) }

/-- app.py is_license_expired (lines 52-55): a falsy (missing or empty)
expiry text is expired; otherwise the text is parsed with strptime and
compared against today. The outer none models the ValueError that
strptime raises on unparsable text. -/
def is_license_expired (today : Date) (expiry_date_text : Option String) : Option Bool :=
  match expiry_date_text with
  | none => some true
  | some s =>
    if s == "" then some true
    else
      match parseDate s with
      | none => none
      | some d => some (dateLt d today)

/-- Result of validate_trip_assignment: an error message, a successful
validation carrying the fetched vehicle and driver rows, or a crash
(uncaught ValueError from strptime). -/
inductive ValidateResult
  | crash
  | err (msg : String)
  | ok (vehicle : Vehicle) (driver : Driver)
deriving Repr, DecidableEq

/-- True exactly on the ok result. -/
def ValidateResult.isOk : ValidateResult → Bool
  | .ok _ _ => true
  | _ => false

/-- app.py validate_trip_assignment (lines 707-735), with the checks in
source order: lookup, cargo weight positive, cargo within capacity,
vehicle not In Shop, license not expired, driver availability, and the
dispatch-specific availability checks. -/
def validate_trip_assignment (today : Date) (db : DB) (vehicle_id driver_id : Nat)
    (cargo_weight : Option ℚ) (status : String) (old_status : Option String) : ValidateResult :=
  match findVehicle db vehicle_id, findDriver db driver_id with
  | some vehicle, some driver =>
    if cargo_weight.elim true (fun w => w ≤ 0) then
      .err "Cargo weight must be a positive number."
    else if cargo_weight.elim false (fun w => vehicle.max_capacity_kg < w) then
      .err "Cargo weight exceeds vehicle maximum capacity."
    else if vehicle.status == "In Shop" then
      .err "Vehicle in shop cannot be assigned to trip."
    else
      match is_license_expired today driver.license_expiry_date with
      | none => .crash
      | some true => .err "Driver license is expired and cannot be assigned."
      | some false =>
        if driver.status != "Available" && old_status != some "Dispatched" then
          .err "Driver is not available for assignment."
        else if status == "Dispatched" && vehicle.status != "Available" && old_status != some "Dispatched" then
          .err "Vehicle must be available to dispatch."
        else if status == "Dispatched" && driver.status != "Available" && old_status != some "Dispatched" then
          .err "Driver must be available to dispatch."
        else .ok vehicle driver
  | _, _ => .err "Vehicle or driver not found."

/-- The three assignable roles (app.py line 16). -/
def ASSIGNABLE_ROLES : List String := ["Dispatcher", "Safety Officer", "Financial Analyst"]

/-- The conflict-check predicate used by the role queries: the user holds
role r and occupies it (status pending or approved). -/
def occupiesRole (r : String) (u : User) : Bool :=
  u.role == r && (u.status == "pending" || u.status == "approved")

/-- True when some user row holds role r with status pending or
approved, i.e. r is in the taken set of
get_available_roles_for_registration. -/
def roleTaken (db : DB) (r : String) : Bool :=
  db.users.any (occupiesRole r)

/-- app.py get_available_roles_for_registration (lines 139-151): the
assignable roles not occupied by a pending or approved user. -/
def get_available_roles_for_registration (db : DB) : List String :=
  ASSIGNABLE_ROLES.filter (fun r => !(roleTaken db r))

/-- app.py register, POST branch (lines 242-310). Inputs are the stripped
form fields (email already lowercased by the handler); hash is the
abstract werkzeug generate_password_hash. The IntegrityError raised by
the UNIQUE(username) constraint is modelled by the membership test, and
its handler rolls the insert back, leaving the state unchanged. -/
def register (hash : String → String) (name email password role : String) (db : DB) : DB × Outcome :=
  if (get_available_roles_for_registration db).isEmpty then
    (db, .error "All roles assigned")
  else if name == "" || email == "" || password == "" || role == "" then
    (db, .error "All fields are required")
  else if !((get_available_roles_for_registration db).contains role) then
    (db, .error "Selected role is not available")
  else if db.users.any (fun u => u.username == email) then
    (db, .error "Email already registered")
  else
    ({ db with
        users := db.users ++ [⟨db.nextUserId, email, some name, some email, hash password, role, "pending"⟩],
        nextUserId := db.nextUserId + 1 },
     .success "Request submitted")

/-- app.py approve_user (lines 395-426): look the user up, refuse a
missing user, a Manager, a non-pending request, or a role conflict with
another pending or approved user, and otherwise set the status to
approved. -/
def approve_user (user_id : Nat) (db : DB) : DB × Outcome :=
  match db.users.find? (fun u => u.id == user_id) with
  | none => (db, .error "Request not found")
  | some user =>
    if user.role == "Manager" then (db, .error "Cannot approve manager role")
    else if user.status != "pending" then (db, .error "Request is not pending")
    else if db.users.any (fun u => occupiesRole user.role u && u.id != user_id) then
      (db, .error "Role already assigned")
    else
      ({ db with users := db.users.map (fun u => if u.id == user_id then { u with status := "approved" } else u) },
       .success "User approved")

/-- app.py reject_user (lines 429-447): like approve_user but without a
conflict check, setting the status to rejected. -/
def reject_user (user_id : Nat) (db : DB) : DB × Outcome :=
  match db.users.find? (fun u => u.id == user_id) with
  | none => (db, .error "Request not found")
  | some user =>
    if user.role == "Manager" then (db, .error "Cannot reject manager role")
    else if user.status != "pending" then (db, .error "Request is not pending")
    else
      ({ db with users := db.users.map (fun u => if u.id == user_id then { u with status := "rejected" } else u) },
       .success "User rejected")

/-- The session data stored on a successful login (app.py lines 232-235). -/
structure SessionData where
  user_id : Nat
  username : String
  role : String
deriving Repr, DecidableEq

/-- The SQL lower() function: ASCII lowercasing, characterwise. -/
def sqlLower (s : String) : String :=
  String.mk (s.data.map Char.toLower)

/-- The SELECT of app.py login (lines 211-218): first user whose
lowercased username or email equals the lowercased input (a NULL email
never matches). -/
def find_login_user (db : DB) (username_input : String) : Option User :=
  db.users.find? (fun u =>
    sqlLower u.username == sqlLower username_input
    || u.email.elim false (fun e => sqlLower e == sqlLower username_input))

/-- app.py login, POST branch (lines 204-239). check is the abstract
werkzeug check_password_hash. Returns the session established (if any)
and the flashed outcome. Every stored user row has a status column, so
the fallback for a missing column is not modelled. -/
def login (check : String → String → Bool) (username password : String) (db : DB) :
    Option SessionData × Outcome :=
  match find_login_user db username with
  | none => (none, .error "Invalid username or password.")
  | some user =>
    if !(check user.password_hash password) then
      (none, .error "Invalid username or password.")
    else if user.status == "pending" then
      (none, .error "Awaiting manager approval")
    else if user.status == "rejected" then
      (none, .error "Access denied by manager")
    else
      (some ⟨user.id, user.username, user.role⟩, .success "Logged in successfully.")

/-- The parts of the Flask session a route guard reads: the user_id key
(absent when not logged in) and the role key. -/
structure SessionView where
  user_id : Option Nat
  role : Option String
deriving Repr, DecidableEq

/-- app.py get_role_home_endpoint (lines 58-65): dict.get with default
login, applied to the possibly-missing session role. -/
def get_role_home_endpoint (role : Option String) : String :=
  match role with
  | some "Manager" => "dashboard"
  | some "Dispatcher" => "trips"
  | some "Safety Officer" => "safety_dashboard"
  | some "Financial Analyst" => "financial_dashboard"
  | _ => "login"

/-- A route response: a redirect to an endpoint, or a page rendered by
the handler body with its outcome. -/
inductive Resp
  | redirect (endpoint : String)
  | page (o : Outcome)
deriving Repr, DecidableEq

/-- True exactly on redirects. -/
def Resp.isRedirect : Resp → Bool
  | .redirect _ => true
  | _ => false

/-- app.py roles_required (lines 167-180): redirect to login when the
session has no user_id, redirect to the role home when the session role
is not in the allowed set, and otherwise run the wrapped handler body. -/
def roles_required_apply (allowed_roles : List String) (handler : DB → DB × Resp)
    (sess : SessionView) (db : DB) : DB × Resp :=
  match sess.user_id with
  | none => (db, .redirect "login")
  | some _ =>
    if sess.role.elim false (fun r => allowed_roles.contains r) then handler db
    else (db, .redirect (get_role_home_endpoint sess.role))

/-- The four legal trip statuses (app.py lines 749 and 826). -/
def tripStatuses : List String := ["Draft", "Dispatched", "Completed", "Cancelled"]

/-- The INSERT INTO trips of app.py lines 764-770, with the next
AUTOINCREMENT id. -/
def insertTrip (vid did : Nat) (cw : Option ℚ) (origin destination status : String) (db : DB) : DB :=
  { db with
      trips := db.trips ++ [⟨db.nextTripId, vid, did, cw, origin, destination, status⟩],
      nextTripId := db.nextTripId + 1 }

/-- The vehicle and driver updates on dispatch (app.py lines 772-778 and
855-861). -/
def dispatchEffect (vid did : Nat) (db : DB) : DB :=
  setDriverStatus (setVehicleStatus db vid "On Trip") did "On Trip"

/-- The vehicle and driver updates that free the resources (app.py lines
779-785 and 862-868). -/
def freeEffect (vid did : Nat) (db : DB) : DB :=
  setDriverStatus (setVehicleStatus db vid "Available") did "Available"

/-- app.py trips, POST branch (lines 741-790): trip creation. vehicle_id,
driver_id and cargo_weight are the typed form fields (none when absent or
unparsable); the falsiness test of the all() call treats none and 0 as
missing. status is the form status after its Draft default and strip. -/
def create_trip (today : Date) (vehicle_id driver_id : Option Nat) (cargo_weight : Option ℚ)
    (origin destination status : String) (db : DB) : DB × Outcome :=
  if !(tripStatuses.contains status) then (db, .error "Invalid trip status.")
  else if vehicle_id.elim true (fun n => n == 0) || driver_id.elim true (fun n => n == 0)
      || origin == "" || destination == "" then
    (db, .error "All trip fields are required.")
  else
    match validate_trip_assignment today db (vehicle_id.getD 0) (driver_id.getD 0) cargo_weight status none with
    | .crash => (db, .crash)
    | .err m => (db, .error m)
    | .ok _ _ =>
      if status == "Dispatched" then
        (dispatchEffect (vehicle_id.getD 0) (driver_id.getD 0)
          (insertTrip (vehicle_id.getD 0) (driver_id.getD 0) cargo_weight origin destination status db),
         .success "Trip created.")
      else if status == "Completed" || status == "Cancelled" then
        (freeEffect (vehicle_id.getD 0) (driver_id.getD 0)
          (insertTrip (vehicle_id.getD 0) (driver_id.getD 0) cargo_weight origin destination status db),
         .success "Trip created.")
      else
        (insertTrip (vehicle_id.getD 0) (driver_id.getD 0) cargo_weight origin destination status db,
         .success "Trip created.")

/-- app.py update_trip_status (lines 822-873): status validation, trip
lookup, the unchanged-status early return, revalidation with the old
status, then the UPDATE and the availability side effects. -/
def update_trip_status (today : Date) (trip_id : Nat) (new_status : String) (db : DB) : DB × Outcome :=
  if !(tripStatuses.contains new_status) then (db, .error "Invalid trip status.")
  else
    match findTrip db trip_id with
    | none => (db, .error "Trip not found.")
    | some trip =>
      if trip.status == new_status then (db, .success "Trip status unchanged.")
      else
        match validate_trip_assignment today db trip.vehicle_id trip.driver_id trip.cargo_weight new_status (some trip.status) with
        | .crash => (db, .crash)
        | .err m => (db, .error m)
        | .ok _ _ =>
          if new_status == "Dispatched" then
            (dispatchEffect trip.vehicle_id trip.driver_id (setTripStatus db trip_id new_status),
             .success "Trip status updated.")
          else if new_status == "Completed" || new_status == "Cancelled" || new_status == "Draft" then
            (freeEffect trip.vehicle_id trip.driver_id (setTripStatus db trip_id new_status),
             .success "Trip status updated.")
          else
            (setTripStatus db trip_id new_status, .success "Trip status updated.")

/-- app.py delete_trip (lines 876-880): flash an error and redirect,
touching nothing. -/
def delete_trip (_trip_id : Nat) (db : DB) : DB × Outcome :=
  (db, .error "Trip deletion is disabled by current role policy.")

/-- The role-uniqueness property of the claim: each assignable role has
at most one pending-or-approved holder. -/
def roleInv (db : DB) : Prop :=
  ∀ r ∈ ASSIGNABLE_ROLES, db.users.countP (occupiesRole r) ≤ 1

/-- Well-formedness the users PRIMARY KEY gives for free: ids are
distinct and below the next AUTOINCREMENT value. -/
def usersWF (db : DB) : Prop :=
  (db.users.map User.id).Nodup ∧ ∀ u ∈ db.users, u.id < db.nextUserId

/-- The inductive invariant carried across user-management steps. -/
def UserInv (db : DB) : Prop := usersWF db ∧ roleInv db

/-- One user-management request: a registration, an approval, or a
rejection. -/
inductive UserStep : DB → DB → Prop
  | reg (hash : String → String) (name email password role : String) (db : DB) :
      UserStep db (register hash name email password role db).1
  | approve (user_id : Nat) (db : DB) :
      UserStep db (approve_user user_id db).1
  | reject (user_id : Nat) (db : DB) :
      UserStep db (reject_user user_id db).1

lemma userInv_append (db : DB) (u : User) (hid : u.id = db.nextUserId)
    (hfree : roleTaken db u.role = false) (h : UserInv db) :
    UserInv { db with users := db.users ++ [u], nextUserId := db.nextUserId + 1 } := by
  obtain ⟨⟨hnd, hb⟩, hrole⟩ := h
  refine ⟨⟨?_, ?_⟩, ?_⟩
  · show (List.map User.id (db.users ++ [u])).Nodup
    simp only [List.map_append, List.map_cons, List.map_nil]
    rw [← List.concat_eq_append]
    refine List.Nodup.concat ?_ hnd
    intro hc
    obtain ⟨w, hw, hwi⟩ := List.mem_map.mp hc
    have := hb w hw
    rw [hwi, hid] at this
    omega
  · intro w hw
    show w.id < db.nextUserId + 1
    rcases List.mem_append.mp hw with h5 | h5
    · exact Nat.lt_succ_of_lt (hb w h5)
    · simp only [List.mem_singleton] at h5
      subst h5
      rw [hid]
      exact Nat.lt_succ_self _
  · intro r' hr'
    show (db.users ++ [u]).countP (occupiesRole r') ≤ 1
    simp only [List.countP_append]
    by_cases h5 : occupiesRole r' u = true
    · have hru : u.role = r' := by
        have := (Bool.and_eq_true _ _).mp h5
        exact beq_iff_eq.mp this.1
      have hz : db.users.countP (occupiesRole r') = 0 := by
        rw [List.countP_eq_zero]
        intro w hw hpw
        have hany : db.users.any (occupiesRole r') = true := by
          rw [List.any_eq_true]; exact ⟨w, hw, hpw⟩
        rw [← hru] at hany
        rw [show db.users.any (occupiesRole u.role) = roleTaken db u.role from rfl, hfree] at hany
        exact Bool.false_ne_true hany
      rw [hz]
      simp [List.countP_cons, h5]
    · have hz : List.countP (occupiesRole r') [u] = 0 := by
        simp only [List.countP_cons, List.countP_nil]
        simp [Bool.eq_false_iff.mpr h5]
      rw [hz]
      simpa using hrole r' hr'

lemma register_preserves_userInv (hash : String → String) (n e p r : String) (db : DB)
    (h : UserInv db) : UserInv (register hash n e p r db).1 := by
  unfold register
  split
  · exact h
  split
  · exact h
  split
  · exact h
  split
  · exact h
  next h1 h2 h3 h4 =>
  have hcontains : (get_available_roles_for_registration db).contains r = true := by
    rcases Bool.eq_false_or_eq_true ((get_available_roles_for_registration db).contains r) with hc | hc
    · exact hc
    · rw [hc] at h3; simp at h3
  have hfree : roleTaken db r = false := by
    have hmem : r ∈ get_available_roles_for_registration db := by
      simpa using hcontains
    have := (List.mem_filter.mp hmem).2
    simpa using this
  exact userInv_append db ⟨db.nextUserId, e, some n, some e, hash p, r, "pending"⟩ rfl hfree h

lemma usersWF_map_status (db : DB) (uid : Nat) (s : String) (hwf : usersWF db) :
    usersWF { db with users := db.users.map (fun u => if u.id == uid then { u with status := s } else u) } := by
  obtain ⟨hnd, hb⟩ := hwf
  constructor
  · show (List.map User.id (db.users.map _)).Nodup
    rw [List.map_map]
    have hcomp : (User.id ∘ fun u => if u.id == uid then { u with status := s } else u) = User.id := by
      funext u
      simp only [Function.comp]
      split <;> rfl
    rw [hcomp]
    exact hnd
  · intro w hw
    show w.id < db.nextUserId
    obtain ⟨u, hu, rfl⟩ := List.mem_map.mp hw
    have hlt := hb u hu
    by_cases hid : u.id == uid
    · simpa [hid] using hlt
    · simpa [hid] using hlt

lemma roleInv_approve (db : DB) (uid : Nat) (user : User)
    (hnd : (db.users.map User.id).Nodup)
    (hf : db.users.find? (fun u => u.id == uid) = some user)
    (hpend : user.status = "pending")
    (hrole : roleInv db) :
    roleInv { db with users := db.users.map (fun u => if u.id == uid then { u with status := "approved" } else u) } := by
  intro r hr
  show (db.users.map _).countP (occupiesRole r) ≤ 1
  rw [List.countP_map]
  have hcong : ∀ w ∈ db.users,
      (occupiesRole r ∘ fun u => if u.id == uid then { u with status := "approved" } else u) w ↔
        occupiesRole r w := by
    intro w hw
    simp only [Function.comp]
    by_cases hid : w.id == uid
    · have huid : user.id = uid := by simpa using List.find?_some hf
      have hwid : w.id = uid := by simpa using hid
      have husermem := List.mem_of_find?_eq_some hf
      have hww : w = user :=
        List.inj_on_of_nodup_map hnd hw husermem (by rw [hwid, huid])
      subst hww
      rw [if_pos hid]
      simp [occupiesRole, hpend]
    · rw [if_neg hid]
  rw [List.countP_congr hcong]
  exact hrole r hr

lemma roleInv_reject (db : DB) (uid : Nat) (hrole : roleInv db) :
    roleInv { db with users := db.users.map (fun u => if u.id == uid then { u with status := "rejected" } else u) } := by
  intro r hr
  show (db.users.map _).countP (occupiesRole r) ≤ 1
  rw [List.countP_map]
  refine le_trans (List.countP_mono_left ?_) (hrole r hr)
  intro w hw hpw
  simp only [Function.comp] at hpw
  by_cases hid : w.id == uid
  · rw [if_pos hid] at hpw
    simp [occupiesRole] at hpw
  · rw [if_neg hid] at hpw
    exact hpw

lemma approve_preserves_userInv (uid : Nat) (db : DB) (h : UserInv db) :
    UserInv (approve_user uid db).1 := by
  unfold approve_user
  split
  · exact h
  next user hf =>
  split
  · exact h
  split
  · exact h
  split
  · exact h
  next h1 h2 h3 =>
  have hpend : user.status = "pending" := by
    rcases Bool.eq_false_or_eq_true (user.status != "pending") with hc | hc
    · rw [hc] at h2; simp at h2
    · simpa using hc
  exact ⟨usersWF_map_status db uid "approved" h.1,
    roleInv_approve db uid user h.1.1 hf hpend h.2⟩

lemma reject_preserves_userInv (uid : Nat) (db : DB) (h : UserInv db) :
    UserInv (reject_user uid db).1 := by
  unfold reject_user
  split
  · exact h
  next user hf =>
  split
  · exact h
  split
  · exact h
  exact ⟨usersWF_map_status db uid "rejected" h.1, roleInv_reject db uid h.2⟩

lemma userStep_preserves_userInv {a b : DB} (hs : UserStep a b) (h : UserInv a) : UserInv b := by
  cases hs with
  | reg hash n e p r => exact register_preserves_userInv hash n e p r a h
  | approve user_id => exact approve_preserves_userInv user_id a h
  | reject user_id => exact reject_preserves_userInv user_id a h

lemma reach_preserves_userInv (db0 db : DB) (h0 : UserInv db0)
    (hrt : Relation.ReflTransGen UserStep db0 db) : UserInv db := by
  induction hrt with
  | refl => exact h0
  | tail _ hbc ih => exact userStep_preserves_userInv hbc ih

lemma register_refuses_taken (hash : String → String) (n e p r : String) (db : DB)
    (ht : roleTaken db r = true) :
    (register hash n e p r db).1 = db ∧ ((register hash n e p r db).2).isError = true := by
  have hnotmem : r ∉ get_available_roles_for_registration db := by
    intro hmem
    have := (List.mem_filter.mp hmem).2
    simp [ht] at this
  unfold register
  split
  · exact ⟨rfl, rfl⟩
  split
  · exact ⟨rfl, rfl⟩
  split
  · exact ⟨rfl, rfl⟩
  next h1 h2 h3 =>
  exfalso
  apply hnotmem
  have hc : (get_available_roles_for_registration db).contains r = true := by
    rcases Bool.eq_false_or_eq_true ((get_available_roles_for_registration db).contains r) with hc | hc
    · exact hc
    · rw [hc] at h3; simp at h3
  simpa using hc

lemma approve_refuses_conflict (uid : Nat) (db : DB) (u : User)
    (hf : db.users.find? (fun x => x.id == uid) = some u)
    (hconf : db.users.any (fun x => occupiesRole u.role x && x.id != uid) = true) :
    (approve_user uid db).1 = db ∧ ((approve_user uid db).2).isError = true := by
  unfold approve_user
  split
  · next heq =>
    rw [hf] at heq
    cases heq
  next user heq =>
  rw [hf] at heq
  injection heq with huser
  subst huser
  split
  · exact ⟨rfl, rfl⟩
  split
  · exact ⟨rfl, rfl⟩
  exact ⟨rfl, rfl⟩

/-- The database after init_db.py: the seeded approved Manager row (the
stored werkzeug hash is an opaque string). -/
def db_seed : DB :=
  { users := [⟨1, "manager", none, none, "hash(manager123)", "Manager", "approved"⟩],
    vehicles := [], drivers := [], trips := [], nextUserId := 2, nextTripId := 1 }

/-- A concrete stand-in for generate_password_hash in witnesses. -/
def hashW : String → String := fun s => String.append s "-hashed"

/-- The seeded state after one Dispatcher registration. -/
def dbW1 : DB := (register hashW "Alice" "alice@example.com" "pw" "Dispatcher" db_seed).1

/-- C1: in every state reachable through registration and the approval
workflow from a well-formed state, each of the three assignable roles has
at most one user with that role whose status is pending or approved;
moreover register refuses (leaving the state unchanged, with an error)
any role already taken, and approve_user refuses when another pending or
approved user with the same role exists. -/
theorem role_uniqueness_claim (db0 db : DB) (h0 : UserInv db0)
    (hrt : Relation.ReflTransGen UserStep db0 db) :
    roleInv db
    ∧ (∀ hash n e p r, roleTaken db r = true →
        (register hash n e p r db).1 = db ∧ ((register hash n e p r db).2).isError = true)
    ∧ (∀ uid u, db.users.find? (fun x => x.id == uid) = some u →
        db.users.any (fun x => occupiesRole u.role x && x.id != uid) = true →
        (approve_user uid db).1 = db ∧ ((approve_user uid db).2).isError = true) := by
  refine ⟨(reach_preserves_userInv db0 db h0 hrt).2, ?_, ?_⟩
  · intro hash n e p r ht
    exact register_refuses_taken hash n e p r db ht
  · intro uid u hf hconf
    exact approve_refuses_conflict uid db u hf hconf

/-- Witness for C1 at the seeded database followed by one registration. -/
theorem role_uniqueness_claim_witness : UserInv db_seed ∧ roleInv dbW1 :=
  ⟨by unfold UserInv usersWF roleInv db_seed; decide,
   (role_uniqueness_claim db_seed dbW1
      (by unfold UserInv usersWF roleInv db_seed; decide)
      (Relation.ReflTransGen.single
        (UserStep.reg hashW "Alice" "alice@example.com" "pw" "Dispatcher" db_seed))).1⟩

/-- C8: delete_trip reports the policy error and leaves the whole
database unchanged, for every trip id and every state: no trip is ever
deleted through the public interface. -/
theorem delete_trip_noop_claim :
    ∀ trip_id db, delete_trip trip_id db =
      (db, Outcome.error "Trip deletion is disabled by current role policy.") :=
  fun _ _ => rfl

/-- C6: a request to a roles_required route whose session has no user_id,
or whose session role is not in the allowed set, is answered with a
redirect and the handler body never runs, so the database state is
unchanged. -/
theorem roles_required_guard_claim (allowed_roles : List String) (handler : DB → DB × Resp)
    (sess : SessionView) (db : DB)
    (h : sess.user_id = none ∨ sess.role.elim false (fun r => allowed_roles.contains r) = false) :
    (roles_required_apply allowed_roles handler sess db).1 = db
    ∧ ((roles_required_apply allowed_roles handler sess db).2).isRedirect = true := by
  unfold roles_required_apply
  rcases h with h | h
  · rw [h]
    exact ⟨rfl, rfl⟩
  · cases husr : sess.user_id with
    | none => exact ⟨rfl, rfl⟩
    | some uid =>
      rw [h]
      exact ⟨rfl, rfl⟩

/-- A handler that would visibly change the state, used to witness that
the guard keeps it from running. -/
def handlerW : DB → DB × Resp :=
  fun d => ({ d with nextTripId := 99 }, Resp.page (Outcome.success "ran"))

/-- Witness for C6: a Dispatcher session hitting a Manager-only route is
redirected and the database is untouched. -/
theorem roles_required_guard_claim_witness :
    (roles_required_apply ["Manager"] handlerW ⟨some 5, some "Dispatcher"⟩ db_seed).1 = db_seed
    ∧ ((roles_required_apply ["Manager"] handlerW ⟨some 5, some "Dispatcher"⟩ db_seed).2).isRedirect = true :=
  roles_required_guard_claim ["Manager"] handlerW ⟨some 5, some "Dispatcher"⟩ db_seed
    (Or.inr (by decide))

/-- C9: is_license_expired is true on a missing or empty expiry text, and
a driver whose stored license_expiry_date is NULL or empty never
validates as assignable to a trip. -/
theorem missing_license_expired_claim :
    (∀ today, is_license_expired today none = some true
      ∧ is_license_expired today (some "") = some true)
    ∧ (∀ today db vid did cw st old d, findDriver db did = some d →
        (d.license_expiry_date = none ∨ d.license_expiry_date = some "") →
        (validate_trip_assignment today db vid did cw st old).isOk = false) := by
  constructor
  · intro today
    exact ⟨rfl, rfl⟩
  · intro today db vid did cw st old d hf hempty
    have hexp : is_license_expired today d.license_expiry_date = some true := by
      rcases hempty with he | he <;> rw [he] <;> rfl
    unfold validate_trip_assignment
    cases hv : findVehicle db vid with
    | none =>
      rw [hf]
      rfl
    | some v =>
      rw [hf]
      dsimp only
      split
      · rfl
      split
      · rfl
      split
      · rfl
      rw [hexp]
      rfl

/-- A driver row with no stored expiry date. -/
def driverC9 : Driver := ⟨1, "Bob", "LN-1", none, "Available", 75⟩

/-- A state holding driverC9 and a vehicle. -/
def dbC9 : DB :=
  { users := [], vehicles := [⟨1, "Truck", "KA-01", 100, 0, "Available"⟩],
    drivers := [driverC9], trips := [], nextUserId := 1, nextTripId := 1 }

/-- Witness for C9: the driver with a NULL expiry date fails validation. -/
theorem missing_license_expired_claim_witness :
    (validate_trip_assignment ⟨2026, 10, 12⟩ dbC9 1 1 (some 10) "Draft" none).isOk = false :=
  missing_license_expired_claim.2 ⟨2026, 10, 12⟩ dbC9 1 1 (some 10) "Draft" none driverC9
    (by decide) (Or.inl rfl)

/-- C7: a login attempt establishes a session exactly when the password
check passes for the matched user and that user is approved; a pending
user is refused with Awaiting manager approval and a rejected one with
Access denied by manager, with no session either way. The hypothesis is
the CHECK constraint of the users table: every status is pending,
approved or rejected. -/
theorem login_gating_claim (check : String → String → Bool) (username password : String) (db : DB)
    (hwf : ∀ u ∈ db.users, u.status = "pending" ∨ u.status = "approved" ∨ u.status = "rejected") :
    (((login check username password db).1).isSome = true ↔
      ∃ u, find_login_user db username = some u ∧ check u.password_hash password = true
        ∧ u.status = "approved")
    ∧ (∀ u, find_login_user db username = some u → check u.password_hash password = true →
        u.status = "pending" →
        login check username password db = (none, .error "Awaiting manager approval"))
    ∧ (∀ u, find_login_user db username = some u → check u.password_hash password = true →
        u.status = "rejected" →
        login check username password db = (none, .error "Access denied by manager")) := by
  unfold login
  cases hf : find_login_user db username with
  | none =>
    refine ⟨?_, ?_, ?_⟩
    · simp
    · intro u hu
      cases hu
    · intro u hu
      cases hu
  | some user =>
    have hmem : user ∈ db.users := List.mem_of_find?_eq_some hf
    have hstat := hwf user hmem
    refine ⟨?_, ?_, ?_⟩
    · by_cases hchk : check user.password_hash password = true
      · rcases hstat with hs | hs | hs
        · simp [hchk, hs]
        · simp [hchk, hs]
        · simp [hchk, hs]
      · simp [hchk]
    · intro u hu hchk hpend
      injection hu with huu
      subst huu
      simp [hchk, hpend]
    · intro u hu hchk hrej
      injection hu with huu
      subst huu
      simp [hchk, hrej]

/-- A concrete stand-in for check_password_hash in witnesses, accepting
the stored seed hash. -/
def checkW : String → String → Bool :=
  fun stored pw => stored == String.append "hash(" (String.append pw ")")

/-- Witness for C7: the seeded approved manager can log in, and at the
same state the claim theorem applies. -/
theorem login_gating_claim_witness :
    ((login checkW "manager" "manager123" db_seed).1).isSome = true :=
  (login_gating_claim checkW "manager" "manager123" db_seed (by decide)).1.mpr
    ⟨⟨1, "manager", none, none, "hash(manager123)", "Manager", "approved"⟩,
      rfl, rfl, rfl⟩

/-- The trip-status enum invariant of the claim: every trip row's status
is one of the four legal values. -/
def tripStatusInv (db : DB) : Prop := ∀ t ∈ db.trips, t.status ∈ tripStatuses

/-- One trip-lifecycle request: a creation, a status update, or a
deletion attempt. -/
inductive TripStep : DB → DB → Prop
  | create (today : Date) (vehicle_id driver_id : Option Nat) (cargo_weight : Option ℚ)
      (origin destination status : String) (db : DB) :
      TripStep db (create_trip today vehicle_id driver_id cargo_weight origin destination status db).1
  | setStatus (today : Date) (trip_id : Nat) (new_status : String) (db : DB) :
      TripStep db (update_trip_status today trip_id new_status db).1
  | del (trip_id : Nat) (db : DB) :
      TripStep db (delete_trip trip_id db).1

lemma tripStatusInv_insert (db : DB) (vid did : Nat) (cw : Option ℚ) (o de st : String)
    (hst : st ∈ tripStatuses) (h : tripStatusInv db) :
    tripStatusInv (insertTrip vid did cw o de st db) := by
  intro t ht
  rcases List.mem_append.mp ht with h5 | h5
  · exact h t h5
  · simp only [List.mem_singleton] at h5
    subst h5
    exact hst

lemma tripStatusInv_setStatus (db : DB) (tid : Nat) (st : String)
    (hst : st ∈ tripStatuses) (h : tripStatusInv db) :
    tripStatusInv (setTripStatus db tid st) := by
  intro t ht
  obtain ⟨u, hu, rfl⟩ := List.mem_map.mp ht
  by_cases hid : u.id == tid
  · simpa [hid] using hst
  · simpa [hid] using h u hu

lemma create_preserves_tripInv (today : Date) (vid did : Option Nat) (cw : Option ℚ)
    (o de st : String) (db : DB) (h : tripStatusInv db) :
    tripStatusInv (create_trip today vid did cw o de st db).1 := by
  unfold create_trip
  split
  · exact h
  split
  · exact h
  next h1 h2 =>
  have hst : st ∈ tripStatuses := by
    rcases Bool.eq_false_or_eq_true (tripStatuses.contains st) with hc | hc
    · simpa using hc
    · rw [hc] at h1; simp at h1
  split
  next hval => exact h
  next m hval => exact h
  next v d hval =>
  split
  · exact tripStatusInv_insert db _ _ cw o de st hst h
  split
  · exact tripStatusInv_insert db _ _ cw o de st hst h
  · exact tripStatusInv_insert db _ _ cw o de st hst h

lemma update_preserves_tripInv (today : Date) (tid : Nat) (st : String) (db : DB)
    (h : tripStatusInv db) :
    tripStatusInv (update_trip_status today tid st db).1 := by
  unfold update_trip_status
  split
  · exact h
  next h1 =>
  have hst : st ∈ tripStatuses := by
    rcases Bool.eq_false_or_eq_true (tripStatuses.contains st) with hc | hc
    · simpa using hc
    · rw [hc] at h1; simp at h1
  split
  · exact h
  next trip heq =>
  split
  · exact h
  split
  next hval => exact h
  next m hval => exact h
  next v d hval =>
  split
  · exact tripStatusInv_setStatus db tid st hst h
  split
  · exact tripStatusInv_setStatus db tid st hst h
  · exact tripStatusInv_setStatus db tid st hst h

lemma tripStep_preserves_tripInv {a b : DB} (hs : TripStep a b) (h : tripStatusInv a) :
    tripStatusInv b := by
  cases hs with
  | create today vid did cw o de st => exact create_preserves_tripInv today vid did cw o de st a h
  | setStatus today tid st => exact update_preserves_tripInv today tid st a h
  | del tid => exact h

/-- C5: trip creation and update_trip_status reject any requested status
outside the four-value enum, leaving the database unchanged, and every
state reachable through the trip operations keeps all trip rows' statuses
inside the enum. -/
theorem trip_status_enum_claim :
    (∀ today vid did cw o de st db, st ∉ tripStatuses →
        create_trip today vid did cw o de st db = (db, Outcome.error "Invalid trip status."))
    ∧ (∀ today tid st db, st ∉ tripStatuses →
        update_trip_status today tid st db = (db, Outcome.error "Invalid trip status."))
    ∧ (∀ db0 db, tripStatusInv db0 → Relation.ReflTransGen TripStep db0 db → tripStatusInv db) := by
  refine ⟨?_, ?_, ?_⟩
  · intro today vid did cw o de st db hnot
    have hc : tripStatuses.contains st = false := by simpa using hnot
    unfold create_trip
    rw [hc]
    rfl
  · intro today tid st db hnot
    have hc : tripStatuses.contains st = false := by simpa using hnot
    unfold update_trip_status
    rw [hc]
    rfl
  · intro db0 db h0 hrt
    induction hrt with
    | refl => exact h0
    | tail _ hbc ih => exact tripStep_preserves_tripInv hbc ih

/-- A base state with one available vehicle and driver, used in trip
witnesses. -/
def dbFleet : DB :=
  { users := [], vehicles := [⟨1, "Truck", "KA-01", 100, 0, "Available"⟩],
    drivers := [⟨1, "Dana", "DL-1", some "2099-01-01", "Available", 80⟩],
    trips := [], nextUserId := 1, nextTripId := 1 }

/-- A fixed current date for witnesses. -/
def todayW : Date := ⟨2026, 10, 12⟩

/-- The fleet state after one successful Draft trip creation. -/
def dbW5 : DB := (create_trip todayW (some 1) (some 1) (some 50) "A" "B" "Draft" dbFleet).1

/-- Witness for C5: a bogus status is rejected unchanged, and the state
reached by one trip creation satisfies the enum invariant. -/
theorem trip_status_enum_claim_witness :
    create_trip todayW (some 1) (some 1) (some 50) "A" "B" "Bogus" dbFleet
      = (dbFleet, Outcome.error "Invalid trip status.")
    ∧ tripStatusInv dbW5 :=
  ⟨trip_status_enum_claim.1 todayW (some 1) (some 1) (some 50) "A" "B" "Bogus" dbFleet (by decide),
   trip_status_enum_claim.2.2 dbFleet dbW5 (by unfold tripStatusInv dbFleet; decide)
     (Relation.ReflTransGen.single
       (TripStep.create todayW (some 1) (some 1) (some 50) "A" "B" "Draft" dbFleet))⟩

lemma find?_status_update {α : Type} (p : α → Bool) (upd : α → α)
    (hp : ∀ x, p (upd x) = p x) (l : List α) :
    (l.map (fun x => if p x = true then upd x else x)).find? p = (l.find? p).map upd := by
  induction l with
  | nil => rfl
  | cons a t ih =>
    cases h : p a with
    | true =>
      simp only [List.map_cons, List.find?_cons]
      rw [if_pos h, hp a, h]
      rfl
    | false =>
      simp only [List.map_cons, List.find?_cons]
      rw [if_neg (by simp [h]), h]
      exact ih

lemma findVehicle_setVehicleStatus (db : DB) (vid : Nat) (s : String) :
    findVehicle (setVehicleStatus db vid s) vid
      = (findVehicle db vid).map (fun v => { v with status := s }) := by
  show (db.vehicles.map (fun v => if v.id == vid then { v with status := s } else v)).find?
        (fun v => v.id == vid)
      = (db.vehicles.find? (fun v => v.id == vid)).map (fun v => { v with status := s })
  exact find?_status_update (fun v => v.id == vid) (fun v => { v with status := s })
    (fun _ => rfl) db.vehicles

lemma findDriver_setDriverStatus (db : DB) (did : Nat) (s : String) :
    findDriver (setDriverStatus db did s) did
      = (findDriver db did).map (fun d => { d with status := s }) := by
  show (db.drivers.map (fun d => if d.id == did then { d with status := s } else d)).find?
        (fun d => d.id == did)
      = (db.drivers.find? (fun d => d.id == did)).map (fun d => { d with status := s })
  exact find?_status_update (fun d => d.id == did) (fun d => { d with status := s })
    (fun _ => rfl) db.drivers

lemma findVehicle_setDriverStatus (db : DB) (did : Nat) (s : String) (x : Nat) :
    findVehicle (setDriverStatus db did s) x = findVehicle db x := rfl

lemma findDriver_setVehicleStatus (db : DB) (vid : Nat) (s : String) (x : Nat) :
    findDriver (setVehicleStatus db vid s) x = findDriver db x := rfl

lemma findVehicle_insertTrip (vid did : Nat) (cw : Option ℚ) (o de st : String) (db : DB) (x : Nat) :
    findVehicle (insertTrip vid did cw o de st db) x = findVehicle db x := rfl

lemma findDriver_insertTrip (vid did : Nat) (cw : Option ℚ) (o de st : String) (db : DB) (x : Nat) :
    findDriver (insertTrip vid did cw o de st db) x = findDriver db x := rfl

lemma findVehicle_setTripStatus (db : DB) (tid : Nat) (s : String) (x : Nat) :
    findVehicle (setTripStatus db tid s) x = findVehicle db x := rfl

lemma findDriver_setTripStatus (db : DB) (tid : Nat) (s : String) (x : Nat) :
    findDriver (setTripStatus db tid s) x = findDriver db x := rfl

lemma validate_ok_finds (today : Date) (db : DB) (vid did : Nat) (cw : Option ℚ)
    (st : String) (old : Option String) (v : Vehicle) (d : Driver)
    (h : validate_trip_assignment today db vid did cw st old = .ok v d) :
    findVehicle db vid = some v ∧ findDriver db did = some d := by
  unfold validate_trip_assignment at h
  split at h
  next veh drv heq1 heq2 =>
    repeat' split at h
    all_goals
      first
      | (injection h with h1 h2
         subst h1
         subst h2
         exact ⟨heq1, heq2⟩)
      | simp at h
  next => simp at h

/-- C2: whenever a trip's status is successfully set to Dispatched, by
trip creation or by update_trip_status, the assigned vehicle and driver
statuses become On Trip; whenever it is successfully set to Completed or
Cancelled, both become Available. -/
theorem trip_status_drives_availability_claim :
    (∀ today vid did cw o de st db db',
      create_trip today vid did cw o de st db = (db', Outcome.success "Trip created.") →
      (st = "Dispatched" →
        (findVehicle db' (vid.getD 0)).map Vehicle.status = some "On Trip"
        ∧ (findDriver db' (did.getD 0)).map Driver.status = some "On Trip")
      ∧ ((st = "Completed" ∨ st = "Cancelled") →
        (findVehicle db' (vid.getD 0)).map Vehicle.status = some "Available"
        ∧ (findDriver db' (did.getD 0)).map Driver.status = some "Available"))
    ∧ (∀ today tid st db db' t,
      findTrip db tid = some t →
      update_trip_status today tid st db = (db', Outcome.success "Trip status updated.") →
      (st = "Dispatched" →
        (findVehicle db' t.vehicle_id).map Vehicle.status = some "On Trip"
        ∧ (findDriver db' t.driver_id).map Driver.status = some "On Trip")
      ∧ ((st = "Completed" ∨ st = "Cancelled") →
        (findVehicle db' t.vehicle_id).map Vehicle.status = some "Available"
        ∧ (findDriver db' t.driver_id).map Driver.status = some "Available")) := by
  constructor
  · intro today vid did cw o de st db db' h
    unfold create_trip at h
    split at h
    · simp at h
    split at h
    · simp at h
    split at h
    next hval => simp at h
    next m hval => simp at h
    next v d hval =>
    obtain ⟨hfv, hfd⟩ :=
      validate_ok_finds today db (vid.getD 0) (did.getD 0) cw st none v d hval
    constructor
    · intro hst
      subst hst
      rw [if_pos (show ("Dispatched" == "Dispatched") = true from rfl), Prod.mk.injEq] at h
      obtain ⟨h1, h2⟩ := h
      subst h1
      constructor
      · unfold dispatchEffect
        rw [findVehicle_setDriverStatus, findVehicle_setVehicleStatus, findVehicle_insertTrip, hfv]
        rfl
      · unfold dispatchEffect
        rw [findDriver_setDriverStatus, findDriver_setVehicleStatus, findDriver_insertTrip, hfd]
        rfl
    · intro hst
      have hny : (st == "Dispatched") = false := by
        rcases hst with hs | hs <;> simp [hs]
      have hyy : (st == "Completed" || st == "Cancelled") = true := by
        rcases hst with hs | hs <;> simp [hs]
      rw [if_neg (by simp [hny]), if_pos hyy, Prod.mk.injEq] at h
      obtain ⟨h1, h2⟩ := h
      subst h1
      constructor
      · unfold freeEffect
        rw [findVehicle_setDriverStatus, findVehicle_setVehicleStatus, findVehicle_insertTrip, hfv]
        rfl
      · unfold freeEffect
        rw [findDriver_setDriverStatus, findDriver_setVehicleStatus, findDriver_insertTrip, hfd]
        rfl
  · intro today tid st db db' t hft h
    unfold update_trip_status at h
    split at h
    · simp at h
    split at h
    · next heq =>
      rw [hft] at heq
      cases heq
    next trip heq =>
    rw [hft] at heq
    injection heq with htrip
    subst htrip
    split at h
    · simp at h
    split at h
    next hval => simp at h
    next m hval => simp at h
    next v d hval =>
    obtain ⟨hfv, hfd⟩ :=
      validate_ok_finds today db t.vehicle_id t.driver_id t.cargo_weight st (some t.status) v d hval
    constructor
    · intro hst
      subst hst
      rw [if_pos (show ("Dispatched" == "Dispatched") = true from rfl), Prod.mk.injEq] at h
      obtain ⟨h1, h2⟩ := h
      subst h1
      constructor
      · unfold dispatchEffect
        rw [findVehicle_setDriverStatus, findVehicle_setVehicleStatus, findVehicle_setTripStatus, hfv]
        rfl
      · unfold dispatchEffect
        rw [findDriver_setDriverStatus, findDriver_setVehicleStatus, findDriver_setTripStatus, hfd]
        rfl
    · intro hst
      have hny : (st == "Dispatched") = false := by
        rcases hst with hs | hs <;> simp [hs]
      have hyy : (st == "Completed" || st == "Cancelled" || st == "Draft") = true := by
        rcases hst with hs | hs <;> simp [hs]
      rw [if_neg (by simp [hny]), if_pos hyy, Prod.mk.injEq] at h
      obtain ⟨h1, h2⟩ := h
      subst h1
      constructor
      · unfold freeEffect
        rw [findVehicle_setDriverStatus, findVehicle_setVehicleStatus, findVehicle_setTripStatus, hfv]
        rfl
      · unfold freeEffect
        rw [findDriver_setDriverStatus, findDriver_setVehicleStatus, findDriver_setTripStatus, hfd]
        rfl

/-- The fleet state after one successful Dispatched trip creation. -/
def dbW2 : DB := (create_trip todayW (some 1) (some 1) (some 50) "A" "B" "Dispatched" dbFleet).1

/-- Witness for C2: dispatching a freshly created trip marks vehicle 1
and driver 1 as On Trip. -/
theorem trip_status_drives_availability_claim_witness :
    (findVehicle dbW2 1).map Vehicle.status = some "On Trip"
    ∧ (findDriver dbW2 1).map Driver.status = some "On Trip" :=
  (trip_status_drives_availability_claim.1 todayW (some 1) (some 1) (some 50) "A" "B"
    "Dispatched" dbFleet dbW2 (by decide)).1 rfl

/-- C10: a successful update_trip_status to Draft on an existing trip
whose status is not Draft sets the assigned vehicle and driver statuses
to Available, whereas creating a new trip with status Draft leaves the
vehicles and drivers tables unchanged. -/
theorem draft_revert_frees_resources_claim :
    (∀ today tid db db' t,
      findTrip db tid = some t →
      t.status ≠ "Draft" →
      update_trip_status today tid "Draft" db = (db', Outcome.success "Trip status updated.") →
      (findVehicle db' t.vehicle_id).map Vehicle.status = some "Available"
      ∧ (findDriver db' t.driver_id).map Driver.status = some "Available")
    ∧ (∀ today vid did cw o de db db',
      create_trip today vid did cw o de "Draft" db = (db', Outcome.success "Trip created.") →
      db'.vehicles = db.vehicles ∧ db'.drivers = db.drivers) := by
  constructor
  · intro today tid db db' t hft hne h
    unfold update_trip_status at h
    split at h
    · simp at h
    split at h
    · next heq =>
      rw [hft] at heq
      cases heq
    next trip heq =>
    rw [hft] at heq
    injection heq with htrip
    subst htrip
    split at h
    · simp at h
    split at h
    next hval => simp at h
    next m hval => simp at h
    next v d hval =>
    obtain ⟨hfv, hfd⟩ :=
      validate_ok_finds today db t.vehicle_id t.driver_id t.cargo_weight "Draft" (some t.status) v d hval
    rw [if_neg (by decide), if_pos (by decide), Prod.mk.injEq] at h
    obtain ⟨h1, h2⟩ := h
    subst h1
    constructor
    · unfold freeEffect
      rw [findVehicle_setDriverStatus, findVehicle_setVehicleStatus, findVehicle_setTripStatus, hfv]
      rfl
    · unfold freeEffect
      rw [findDriver_setDriverStatus, findDriver_setVehicleStatus, findDriver_setTripStatus, hfd]
      rfl
  · intro today vid did cw o de db db' h
    unfold create_trip at h
    split at h
    · simp at h
    split at h
    · simp at h
    split at h
    next hval => simp at h
    next m hval => simp at h
    next v d hval =>
    rw [if_neg (by decide), if_neg (by decide), Prod.mk.injEq] at h
    obtain ⟨h1, h2⟩ := h
    subst h1
    exact ⟨rfl, rfl⟩

/-- The trip row created in dbW2. -/
def tripW2 : Trip := ⟨1, 1, 1, some 50, "A", "B", "Dispatched"⟩

/-- The state after reverting the dispatched trip of dbW2 to Draft. -/
def dbW10 : DB := (update_trip_status todayW 1 "Draft" dbW2).1

/-- Witness for C10: reverting the dispatched trip to Draft frees vehicle
1 and driver 1. -/
theorem draft_revert_frees_resources_claim_witness :
    (findVehicle dbW10 1).map Vehicle.status = some "Available"
    ∧ (findDriver dbW10 1).map Driver.status = some "Available" :=
  draft_revert_frees_resources_claim.1 todayW 1 dbW2 dbW10 tripW2
    (by decide) (by decide) (by decide)

/-- The cargo condition named by the claim: the weight is missing, not
positive, or exceeds the assigned vehicle's max_capacity_kg. -/
def cargoInvalid (db : DB) (vid : Nat) (cw : Option ℚ) : Bool :=
  cw.elim true (fun w =>
    decide (w ≤ 0)
    || (findVehicle db vid).elim false (fun v => decide (v.max_capacity_kg < w)))

lemma validate_cargo_err (today : Date) (db : DB) (vid did : Nat) (cw : Option ℚ)
    (st : String) (old : Option String) (h : cargoInvalid db vid cw = true) :
    ∃ m, validate_trip_assignment today db vid did cw st old = .err m := by
  unfold validate_trip_assignment
  cases hv : findVehicle db vid with
  | none => exact ⟨"Vehicle or driver not found.", rfl⟩
  | some v =>
    cases hd : findDriver db did with
    | none => exact ⟨"Vehicle or driver not found.", rfl⟩
    | some d =>
      unfold cargoInvalid at h
      rw [hv] at h
      cases cw with
      | none => exact ⟨"Cargo weight must be a positive number.", rfl⟩
      | some w =>
        simp only [Option.elim] at h
        by_cases h1 : w ≤ 0
        · refine ⟨"Cargo weight must be a positive number.", ?_⟩
          dsimp only
          rw [if_pos (show ((some w).elim true fun x => decide (x ≤ 0)) = true by simp [h1])]
        · simp only [Bool.or_eq_true, decide_eq_true_eq] at h
          rcases h with h | h
          · exact absurd h h1
          · refine ⟨"Cargo weight exceeds vehicle maximum capacity.", ?_⟩
            dsimp only
            rw [if_neg (show ¬(((some w).elim true fun x => decide (x ≤ 0)) = true) by simp [h1]),
              if_pos (show ((some w).elim false fun x => decide (v.max_capacity_kg < x)) = true by simp [h])]

/-- A vehicle of capacity 100 for the C3 counterexample. -/
def vehC3 : Vehicle := ⟨1, "Truck", "KA-02", 100, 0, "Available"⟩

/-- A trip whose stored cargo weight 500 exceeds the capacity of vehC3. -/
def tripC3 : Trip := ⟨1, 1, 1, some 500, "A", "B", "Draft"⟩

/-- A state holding vehC3 and tripC3 (reachable in the app because a
Manager may lower a vehicle's capacity after the trip was created). -/
def dbC3 : DB :=
  { users := [], vehicles := [vehC3],
    drivers := [⟨1, "Dana", "DL-2", some "2099-01-01", "Available", 80⟩],
    trips := [tripC3], nextUserId := 1, nextTripId := 2 }

/-- Counterexample to C3 as stated: a status update whose requested
status equals the trip's current status reports success (Trip status
unchanged.), not an error, even though the trip's cargo weight 500
exceeds the assigned vehicle's capacity 100. -/
theorem capacity_check_claim_counterexample :
    findTrip dbC3 1 = some tripC3
    ∧ tripC3.cargo_weight = some 500
    ∧ findVehicle dbC3 tripC3.vehicle_id = some vehC3
    ∧ vehC3.max_capacity_kg < 500
    ∧ (update_trip_status todayW 1 "Draft" dbC3).2 = Outcome.success "Trip status unchanged."
    ∧ (update_trip_status todayW 1 "Draft" dbC3).2.isError = false := by
  refine ⟨rfl, rfl, rfl, by decide, rfl, rfl⟩

/-- C3 as amended: for every trip creation, and for every trip status
update whose requested status differs from the trip's current status, an
invalid cargo weight (missing, not positive, or above the assigned
vehicle's max_capacity_kg) makes the operation report an error and leave
the database unchanged. -/
theorem capacity_check_claim :
    (∀ today vid did cw o de st db,
      cargoInvalid db (vid.getD 0) cw = true →
      (create_trip today vid did cw o de st db).1 = db
      ∧ ((create_trip today vid did cw o de st db).2).isError = true)
    ∧ (∀ today tid st db t,
      findTrip db tid = some t →
      t.status ≠ st →
      cargoInvalid db t.vehicle_id t.cargo_weight = true →
      (update_trip_status today tid st db).1 = db
      ∧ ((update_trip_status today tid st db).2).isError = true) := by
  constructor
  · intro today vid did cw o de st db h
    obtain ⟨m, hm⟩ := validate_cargo_err today db (vid.getD 0) (did.getD 0) cw st none h
    unfold create_trip
    split
    · exact ⟨rfl, rfl⟩
    split
    · exact ⟨rfl, rfl⟩
    split
    next hval => rw [hval] at hm; cases hm
    next m2 hval => exact ⟨rfl, rfl⟩
    next v d hval => rw [hval] at hm; cases hm
  · intro today tid st db t hft hne h
    obtain ⟨m, hm⟩ :=
      validate_cargo_err today db t.vehicle_id t.driver_id t.cargo_weight st (some t.status) h
    unfold update_trip_status
    split
    · exact ⟨rfl, rfl⟩
    split
    · exact ⟨rfl, rfl⟩
    next trip heq =>
    rw [hft] at heq
    injection heq with htr
    subst htr
    split
    · next hcond => exact absurd (by simpa using hcond) hne
    split
    next hval => rw [hval] at hm; cases hm
    next m2 hval => exact ⟨rfl, rfl⟩
    next v d hval => rw [hval] at hm; cases hm

/-- Witness for the amended C3: creating a trip with cargo 500 against
the capacity-100 vehicle errors and changes nothing. -/
theorem capacity_check_claim_witness :
    (create_trip todayW (some 1) (some 1) (some 500) "A" "B" "Draft" dbC3).1 = dbC3
    ∧ ((create_trip todayW (some 1) (some 1) (some 500) "A" "B" "Draft" dbC3).2).isError = true :=
  capacity_check_claim.1 todayW (some 1) (some 1) (some 500) "A" "B" "Draft" dbC3 (by decide)

lemma validate_license_err (today : Date) (db : DB) (vid did : Nat) (cw : Option ℚ)
    (st : String) (old : Option String) (v : Vehicle) (d : Driver)
    (hv : findVehicle db vid = some v) (hd : findDriver db did = some d)
    (hw : ∃ w, cw = some w ∧ 0 < w ∧ w ≤ v.max_capacity_kg)
    (hshop : v.status ≠ "In Shop")
    (hexp : is_license_expired today d.license_expiry_date = some true) :
    validate_trip_assignment today db vid did cw st old
      = .err "Driver license is expired and cannot be assigned." := by
  obtain ⟨w, hww, hw1, hw2⟩ := hw
  subst hww
  unfold validate_trip_assignment
  rw [hv, hd]
  dsimp only
  rw [if_neg (show ¬(((some w).elim true fun x => decide (x ≤ 0)) = true) by
        simpa using not_le.mpr hw1),
    if_neg (show ¬(((some w).elim false fun x => decide (v.max_capacity_kg < x)) = true) by
        simpa using not_lt.mpr hw2),
    if_neg (show ¬((v.status == "In Shop") = true) by simpa using hshop),
    hexp]

/-- A vehicle for the C4 states. -/
def vehC4 : Vehicle := ⟨1, "Truck", "KA-03", 100, 0, "Available"⟩

/-- A driver whose stored license expiry 2020-01-01 lies before todayW. -/
def drvC4 : Driver := ⟨1, "Eve", "DL-3", some "2020-01-01", "Available", 70⟩

/-- A state holding vehC4 and the expired driver drvC4. -/
def dbC4 : DB :=
  { users := [], vehicles := [vehC4], drivers := [drvC4], trips := [],
    nextUserId := 1, nextTripId := 1 }

/-- Counterexample to C4 as stated: with an expired driver license and a
missing cargo weight, trip creation reports the cargo error, not the
license message, because the cargo checks run first. -/
theorem license_check_claim_counterexample :
    is_license_expired todayW drvC4.license_expiry_date = some true
    ∧ findDriver dbC4 1 = some drvC4
    ∧ (create_trip todayW (some 1) (some 1) none "A" "B" "Draft" dbC4).2
        = Outcome.error "Cargo weight must be a positive number." := by
  refine ⟨by decide, rfl, rfl⟩

/-- C4 as amended: when the earlier validation checks pass (vehicle and
driver found, cargo weight positive and within capacity, vehicle not In
Shop) and the driver's license_expiry_date is empty or parses strictly
before today, trip creation - with a valid status and non-missing form
fields - and a status update to a valid status different from the trip's
current one report exactly the message Driver license is expired and
cannot be assigned., leaving the database unchanged. -/
theorem license_check_claim :
    (∀ today vid did cw o de st db v d,
      tripStatuses.contains st = true →
      ((vid.elim true fun n => n == 0) || (did.elim true fun n => n == 0)
        || o == "" || de == "") = false →
      findVehicle db (vid.getD 0) = some v →
      findDriver db (did.getD 0) = some d →
      (∃ w, cw = some w ∧ 0 < w ∧ w ≤ v.max_capacity_kg) →
      v.status ≠ "In Shop" →
      is_license_expired today d.license_expiry_date = some true →
      create_trip today vid did cw o de st db
        = (db, Outcome.error "Driver license is expired and cannot be assigned."))
    ∧ (∀ today tid st db t v d,
      tripStatuses.contains st = true →
      findTrip db tid = some t →
      t.status ≠ st →
      findVehicle db t.vehicle_id = some v →
      findDriver db t.driver_id = some d →
      (∃ w, t.cargo_weight = some w ∧ 0 < w ∧ w ≤ v.max_capacity_kg) →
      v.status ≠ "In Shop" →
      is_license_expired today d.license_expiry_date = some true →
      update_trip_status today tid st db
        = (db, Outcome.error "Driver license is expired and cannot be assigned.")) := by
  constructor
  · intro today vid did cw o de st db v d hst hfields hv hd hw hshop hexp
    have hval := validate_license_err today db (vid.getD 0) (did.getD 0) cw st none v d
      hv hd hw hshop hexp
    unfold create_trip
    rw [if_neg (show ¬((!tripStatuses.contains st) = true) by rw [hst]; decide),
      if_neg (show ¬(((vid.elim true fun n => n == 0) || (did.elim true fun n => n == 0)
          || o == "" || de == "") = true) by simp [hfields]),
      hval]
  · intro today tid st db t v d hst hft hne hv hd hw hshop hexp
    have hval := validate_license_err today db t.vehicle_id t.driver_id t.cargo_weight st
      (some t.status) v d hv hd hw hshop hexp
    unfold update_trip_status
    rw [if_neg (show ¬((!tripStatuses.contains st) = true) by rw [hst]; decide), hft]
    dsimp only
    rw [if_neg (show ¬((t.status == st) = true) by simpa using hne), hval]

/-- Witness for the amended C4: creating a valid-looking trip with the
expired driver reports exactly the license message and changes nothing. -/
theorem license_check_claim_witness :
    create_trip todayW (some 1) (some 1) (some 50) "A" "B" "Draft" dbC4
      = (dbC4, Outcome.error "Driver license is expired and cannot be assigned.") :=
  license_check_claim.1 todayW (some 1) (some 1) (some 50) "A" "B" "Draft" dbC4 vehC4 drvC4
    (by decide) (by decide) rfl rfl ⟨50, rfl, by decide, by decide⟩ (by decide) (by decide)

end FleetFlow
